import Mathlib

/-!
Shallow embedding of the blkid Rust wrapper (cholcombe973/blkid).

The repository wraps the native libblkid C library.  The pieces embedded here
are the wrapper's own logic: translation of native return codes and null
pointers into structured results, the string conversions applied to bytes read
from foreign buffers, the loops assembling value maps and partition lists, and
the resource-release structure (which native functions each method calls, and
what the Drop implementations call).

Machine integers (c_int, i32, i64) are modelled as Int; raw pointers as
Option Nat where none is the null pointer; byte buffers as List Nat.  A Rust
function that can return Err or panic is modelled as returning ROutcome.
-/

/-- Outcome of a Rust call: a normal value, an error return (Err) or a panic.
The Rust question-mark operator propagates err, and a panic aborts the caller
as well, so both err and panicked are propagated by bind. -/
inductive ROutcome (ε α : Type) where
  | ok : α → ROutcome ε α
  | err : ε → ROutcome ε α
  | panicked : String → ROutcome ε α
deriving DecidableEq, Repr

/-- Monadic bind on ROutcome: models sequencing Rust statements where fallible
calls use the question-mark operator (err and panic both propagate). -/
def ROutcome.bind : ROutcome ε α → (α → ROutcome ε β) → ROutcome ε β
  | .ok a, f => f a
  | .err e, _ => .err e
  | .panicked m, _ => .panicked m

/-- True when the outcome is an error return. -/
def ROutcome.isErr : ROutcome ε α → Bool
  | .err _ => true
  | _ => false

/-- True when the outcome is a panic. -/
def ROutcome.isPanic : ROutcome ε α → Bool
  | .panicked _ => true
  | _ => false

/-- True when the outcome is a normal value. -/
def ROutcome.isOk : ROutcome ε α → Bool
  | .ok _ => true
  | _ => false

/-- Error type of the legacy lib.rs module (enum BlkidError there): a string
message, a NUL conversion error, a UTF-8 error, an IO error or an
into-string error. -/
inductive LibRsError where
  | Error : String → LibRsError
  | NulError : LibRsError
  | FromUtf8Error : LibRsError
  | IoError : LibRsError
  | IntoStringError : LibRsError
deriving DecidableEq, Repr

/-- Error type of src/error.rs (enum BlkidError there), reduced to the
variants its functions construct plus the conversion variants. -/
inductive ErrorRsError where
  | LibBlkid : Int → ErrorRsError
  | LibBlkidNull : ErrorRsError
  | LibBlkidHasValue : Int → ErrorRsError
  | LibBlkidKnownFsType : Int → ErrorRsError
  | Errno : Int → ErrorRsError
  | Other : String → ErrorRsError
deriving DecidableEq, Repr

/-- Error type of the newer error module used by prober.rs, cache.rs,
part_list.rs and partition.rs (BlkIdError).  The module itself is not under
src/ (only its callers are); the variants are those the callers construct:
a library error carrying the raw code, a null return, an IO error carrying
the OS errno, a NUL conversion error and a UTF-8 conversion error. -/
inductive BlkIdError where
  | LibBlkid : Int → BlkIdError
  | LibBlkidNull : BlkIdError
  | Io : Int → BlkIdError
  | Nul : BlkIdError
  | Utf8 : BlkIdError
deriving DecidableEq, Repr

/-- src/error.rs, function result: a raw c_int return of 0 is Ok, anything
else is a LibBlkid error carrying the raw value. -/
def errorRs_result (val : Int) : ROutcome ErrorRsError Unit :=
  if val = 0 then .ok () else .err (.LibBlkid val)

/-- src/error.rs, function result_ptr_mut: a null pointer is a LibBlkidNull
error, a non-null pointer passes through. -/
def errorRs_result_ptr_mut (val : Option Nat) : ROutcome ErrorRsError Nat :=
  match val with
  | none => .err .LibBlkidNull
  | some p => .ok p

/-- Modelled from the spec: the c_result helper of the newer error module is
not under src/ (only its callers in prober.rs, cache.rs, part_list.rs,
part_table.rs and partition.rs are).  Per spec section 4.1, any negative raw
integer result becomes an error carrying the raw code; other values pass
through.  This is the integer instance. -/
def c_result_int (val : Int) : ROutcome BlkIdError Int :=
  if val < 0 then .err (.LibBlkid val) else .ok val

/-- Modelled from the spec: the pointer instance of the c_result helper of
the newer error module, which is not under src/.  Per spec section 4.1, a
null raw pointer result becomes an error; a non-null pointer passes
through. -/
def c_result_ptr (val : Option Nat) : ROutcome BlkIdError Nat :=
  match val with
  | none => .err .LibBlkidNull
  | some p => .ok p

/-- Modelled from the spec: path_to_cstring is not under src/ (only its
callers in prober.rs and cache.rs are).  Per spec section 7(c) it converts a
path into a C string and fails with a string-encoding error when the path
contains an interior NUL byte. -/
def path_to_cstring (path : List Nat) : ROutcome BlkIdError (List Nat) :=
  if 0 ∈ path then .err .Nul else .ok path

/-- CString::new used by cache.rs and prober.rs: fails with a Nul error when
the byte sequence contains an interior NUL byte. -/
def cstring_new (bytes : List Nat) : ROutcome BlkIdError (List Nat) :=
  if 0 ∈ bytes then .err .Nul else .ok bytes

/-- prober.rs, enum ProbeState. -/
inductive ProbeState where
  | Success : ProbeState
  | Done : ProbeState
  | NothingDetected : ProbeState
  | Ambivalent : ProbeState
deriving DecidableEq, Repr

/-- prober.rs Prober handle: owns the native blkid_probe pointer. -/
structure Prober where
  handle : Nat
deriving DecidableEq, Repr

/-- cache.rs Cache handle: owns the native blkid_cache pointer, which the
constructor receives through an out-parameter. -/
structure Cache where
  handle : Option Nat
deriving DecidableEq, Repr

/-- dev.rs Dev: a borrowed native blkid_dev pointer. -/
structure Dev where
  handle : Nat
deriving DecidableEq, Repr

/-- prober.rs Prober::do_probe, as a function of the raw return code of
blkid_do_probe and the ambient OS errno (last_os_error): 0 is Success, 1 is
Done, anything else is an IO error. -/
def Prober.do_probe (errno ret_code : Int) : ROutcome BlkIdError ProbeState :=
  if ret_code = 0 then .ok .Success
  else if ret_code = 1 then .ok .Done
  else .err (.Io errno)

/-- prober.rs Prober::do_safe_probe, as a function of the raw return code of
blkid_do_safeprobe and the ambient OS errno: 0 is Success, 1 is
NothingDetected, -2 is Ambivalent, anything else is an IO error. -/
def Prober.do_safe_probe (errno ret_code : Int) : ROutcome BlkIdError ProbeState :=
  if ret_code = 0 then .ok .Success
  else if ret_code = 1 then .ok .NothingDetected
  else if ret_code = -2 then .ok .Ambivalent
  else .err (.Io errno)

/-- prober.rs Prober::do_full_probe, as a function of the raw return code of
blkid_do_safeprobe and the ambient OS errno: 0 is Success, 1 is
NothingDetected, anything else (including -2) is an IO error. -/
def Prober.do_full_probe (errno ret_code : Int) : ROutcome BlkIdError ProbeState :=
  if ret_code = 0 then .ok .Success
  else if ret_code = 1 then .ok .NothingDetected
  else .err (.Io errno)

/-- prober.rs Prober::do_wipe, as a function of the raw return code of
blkid_do_wipe and the ambient OS errno: 0 is Success, 1 is Done, anything
else is an IO error. -/
def Prober.do_wipe (errno ret_code : Int) : ROutcome BlkIdError ProbeState :=
  if ret_code = 0 then .ok .Success
  else if ret_code = 1 then .ok .Done
  else .err (.Io errno)

/-- Names of native entry points, used to record which native function a
wrapper method invokes. -/
inductive NativeFn where
  | blkid_new_probe
  | blkid_new_probe_from_filename
  | blkid_free_probe
  | blkid_do_probe
  | blkid_do_safeprobe
  | blkid_do_wipe
  | blkid_probe_get_value
  | blkid_probe_numof_values
  | blkid_probe_has_value
  | blkid_probe_lookup_value
  | blkid_probe_get_devno
  | blkid_probe_get_fd
  | blkid_probe_get_sectorsize
  | blkid_probe_get_sectors
  | blkid_probe_get_size
  | blkid_probe_get_offset
  | blkid_probe_get_wholedisk_devno
  | blkid_probe_is_wholedisk
  | blkid_probe_step_back
  | blkid_probe_set_device
  | blkid_reset_probe
  | blkid_probe_enable_superblocks
  | blkid_known_fstype
  | blkid_probe_invert_superblocks_filter
  | blkid_probe_reset_superblocks_filter
  | blkid_probe_set_superblocks_flags
  | blkid_probe_enable_partitions
  | blkid_probe_set_partitions_flags
  | blkid_probe_invert_partitions_filter
  | blkid_probe_reset_partitions_filter
  | blkid_known_pttype
  | blkid_probe_get_partitions
  | blkid_probe_enable_topology
  | blkid_probe_get_topology
  | blkid_get_cache
  | blkid_put_cache
  | blkid_probe_all
  | blkid_probe_all_new
  | blkid_probe_all_removable
  | blkid_dev_iterate_begin
  | blkid_get_dev
  | blkid_find_dev_with_tag
  | blkid_get_tag_value
  | blkid_gc_cache
deriving DecidableEq, Repr

/-- Native entry point invoked by Prober::do_safe_probe (prober.rs line
125). -/
def Prober.do_safe_probe_entry : NativeFn := .blkid_do_safeprobe

/-- Native entry point invoked by Prober::do_full_probe (prober.rs line
142). -/
def Prober.do_full_probe_entry : NativeFn := .blkid_do_safeprobe

/-- lib.rs BlkId::do_probe, as a function of the raw return code of
blkid_do_probe and the formatted errno message: a negative code is an error,
any other code is returned raw in Ok. -/
def BlkId.do_probe (errnoMsg : String) (ret_code : Int) : ROutcome LibRsError Int :=
  if ret_code < 0 then .err (.Error errnoMsg) else .ok ret_code

/-- lib.rs BlkId::do_safe_probe, as a function of the raw return code of
blkid_do_safeprobe and the formatted errno message: only -1 is an error,
every other code (including the negative -2) is returned raw in Ok. -/
def BlkId.do_safe_probe (errnoMsg : String) (ret_code : Int) : ROutcome LibRsError Int :=
  if ret_code = -1 then .err (.Error errnoMsg) else .ok ret_code

/-- prober.rs Prober::new: applies c_result to the pointer returned by
blkid_new_probe and wraps the handle. -/
def Prober.new (native : Option Nat) : ROutcome BlkIdError Prober :=
  (c_result_ptr native).bind fun probe => .ok ⟨probe⟩

/-- prober.rs Prober::new_from_filename: converts the path with
path_to_cstring, then applies c_result to the pointer returned by
blkid_new_probe_from_filename and wraps the handle. -/
def Prober.new_from_filename (filename : List Nat) (native : Option Nat) :
    ROutcome BlkIdError Prober :=
  (path_to_cstring filename).bind fun _ =>
    (c_result_ptr native).bind fun probe => .ok ⟨probe⟩

/-- cache.rs Cache::new: applies c_result to the integer returned by
blkid_get_cache and wraps the handle written through the out-parameter. -/
def Cache.new (ret_code : Int) (cache : Option Nat) : ROutcome BlkIdError Cache :=
  (c_result_int ret_code).bind fun _ => .ok ⟨cache⟩

/-- cache.rs Cache::new_by_path: converts the path with path_to_cstring, then
applies c_result to the integer returned by blkid_get_cache and wraps the
handle written through the out-parameter. -/
def Cache.new_by_path (path : List Nat) (ret_code : Int) (cache : Option Nat) :
    ROutcome BlkIdError Cache :=
  (path_to_cstring path).bind fun _ =>
    (c_result_int ret_code).bind fun _ => .ok ⟨cache⟩

/-- cache.rs Cache::find_dev_with_tag: converts the tag name and value with
CString::new, calls blkid_find_dev_with_tag, and translates a null device
pointer into Ok(None) and a non-null pointer into Ok(Some(Dev)). -/
def Cache.find_dev_with_tag (name value : List Nat) (dev : Option Nat) :
    ROutcome BlkIdError (Option Dev) :=
  (cstring_new name).bind fun _ =>
    (cstring_new value).bind fun _ =>
      match dev with
      | none => .ok none
      | some d => .ok (some ⟨d⟩)

/-- Association-list model of HashMap::insert: a later insert of the same key
replaces the earlier binding. -/
def mapInsert (m : List (String × String)) (key value : String) :
    List (String × String) :=
  m.filter (fun p => p.1 ≠ key) ++ [(key, value)]

/-- The loop body of prober.rs Prober::get_values_map: for each index from i
with rem indices remaining, call get_value with the question-mark operator
and insert the pair into the map. -/
def Prober.get_values_loop (get_value : Int → ROutcome BlkIdError (String × String)) :
    Int → Nat → List (String × String) → ROutcome BlkIdError (List (String × String))
  | _, 0, acc => .ok acc
  | i, rem + 1, acc =>
    match get_value i with
    | .ok (key, value) => Prober.get_values_loop get_value (i + 1) rem (mapInsert acc key value)
    | .err e => .err e
    | .panicked m => .panicked m

/-- prober.rs Prober::get_values_map, as a function of the outcome of
numof_values and of get_value at each index: queries numof_values with the
question-mark operator, then loops over 0..numof inserting each get_value
result, propagating any failure with the question-mark operator. -/
def Prober.get_values_map (numof : ROutcome BlkIdError Int)
    (get_value : Int → ROutcome BlkIdError (String × String)) :
    ROutcome BlkIdError (List (String × String)) :=
  numof.bind fun n => Prober.get_values_loop get_value 0 n.toNat []

/-- The map-and-collect body of lib.rs BlkId::get_values_map: each get_value
result is unwrapped with expect, which panics on an error. -/
def BlkId.get_values_collect (get_value : Int → ROutcome LibRsError (String × String)) :
    Int → Nat → List (String × String) → ROutcome LibRsError (List (String × String))
  | _, 0, acc => .ok acc
  | i, rem + 1, acc =>
    match get_value i with
    | .ok (key, value) => BlkId.get_values_collect get_value (i + 1) rem (mapInsert acc key value)
    | .err _ => .panicked "i is in range"
    | .panicked m => .panicked m

/-- lib.rs BlkId::get_values_map: queries numof_values with the question-mark
operator, then maps get_value over 0..numof unwrapping each result with
expect (a panic on error) and collects into a map. -/
def BlkId.get_values_map (numof : ROutcome LibRsError Int)
    (get_value : Int → ROutcome LibRsError (String × String)) :
    ROutcome LibRsError (List (String × String)) :=
  numof.bind fun n => BlkId.get_values_collect get_value 0 n.toNat []

/-- part_list.rs Partition wrapper produced by PartList::get_partition: wraps
the native blkid_partition pointer. -/
structure Partition where
  handle : Nat
deriving DecidableEq, Repr

/-- The loop body of part_list.rs PartList::get_partitions: for each index
from i with rem indices remaining, call get_partition with the question-mark
operator and push the partition. -/
def PartList.get_partitions_loop (get_partition : Int → ROutcome BlkIdError Partition) :
    Int → Nat → List Partition → ROutcome BlkIdError (List Partition)
  | _, 0, acc => .ok acc
  | i, rem + 1, acc =>
    match get_partition i with
    | .ok part => PartList.get_partitions_loop get_partition (i + 1) rem (acc ++ [part])
    | .err e => .err e
    | .panicked m => .panicked m

/-- part_list.rs PartList::get_partitions, as a function of the outcome of
numof_partitions and of get_partition at each index: queries
numof_partitions with the question-mark operator, then pushes
get_partition(i) for each i in 0..numof, propagating any failure with the
question-mark operator. -/
def PartList.get_partitions (numof : ROutcome BlkIdError Int)
    (get_partition : Int → ROutcome BlkIdError Partition) :
    ROutcome BlkIdError (List Partition) :=
  numof.bind fun n => PartList.get_partitions_loop get_partition 0 n.toNat []

/-- part_list.rs PartList::numof_partitions: applies c_result to the integer
returned by blkid_partlist_numof_partitions. -/
def PartList.numof_partitions (ret_code : Int) : ROutcome BlkIdError Int :=
  c_result_int ret_code

/-- The public methods of prober.rs Prober (besides the constructors and the
Drop implementation). -/
inductive ProberOp where
  | do_probe
  | do_safe_probe
  | do_full_probe
  | do_wipe
  | get_value
  | get_values_map
  | has_value
  | lookup_value
  | numof_values
  | get_devno
  | get_fd
  | get_sector_size
  | get_sectors
  | get_size
  | get_offset
  | get_wholedisk_devno
  | is_wholedisk
  | step_back
  | set_device
  | reset_probe
  | enable_superblocks
  | known_fstype
  | invert_superblocks_filter
  | reset_superblocks_filter
  | set_superblocks_flags
  | enable_partitions
  | set_partitions_flags
  | invert_partitions_filter
  | reset_partitions_filter
  | known_pttype
  | part_list
  | enable_topology
  | topology
deriving DecidableEq, Repr

/-- Native functions invoked by each public Prober method (prober.rs).  The
Nat argument is the number of loop iterations executed for the one method
with an internal loop (get_values_map, which calls blkid_probe_get_value
once per index); it is ignored by the others. -/
def ProberOp.nativeCalls : ProberOp → Nat → List NativeFn
  | .do_probe, _ => [.blkid_do_probe]
  | .do_safe_probe, _ => [.blkid_do_safeprobe]
  | .do_full_probe, _ => [.blkid_do_safeprobe]
  | .do_wipe, _ => [.blkid_do_wipe]
  | .get_value, _ => [.blkid_probe_get_value]
  | .get_values_map, n =>
    .blkid_probe_numof_values :: List.replicate n .blkid_probe_get_value
  | .has_value, _ => [.blkid_probe_has_value]
  | .lookup_value, _ => [.blkid_probe_lookup_value]
  | .numof_values, _ => [.blkid_probe_numof_values]
  | .get_devno, _ => [.blkid_probe_get_devno]
  | .get_fd, _ => [.blkid_probe_get_fd]
  | .get_sector_size, _ => [.blkid_probe_get_sectorsize]
  | .get_sectors, _ => [.blkid_probe_get_sectors]
  | .get_size, _ => [.blkid_probe_get_size]
  | .get_offset, _ => [.blkid_probe_get_offset]
  | .get_wholedisk_devno, _ => [.blkid_probe_get_wholedisk_devno]
  | .is_wholedisk, _ => [.blkid_probe_is_wholedisk]
  | .step_back, _ => [.blkid_probe_step_back]
  | .set_device, _ => [.blkid_probe_set_device]
  | .reset_probe, _ => [.blkid_reset_probe]
  | .enable_superblocks, _ => [.blkid_probe_enable_superblocks]
  | .known_fstype, _ => [.blkid_known_fstype]
  | .invert_superblocks_filter, _ => [.blkid_probe_invert_superblocks_filter]
  | .reset_superblocks_filter, _ => [.blkid_probe_reset_superblocks_filter]
  | .set_superblocks_flags, _ => [.blkid_probe_set_superblocks_flags]
  | .enable_partitions, _ => [.blkid_probe_enable_partitions]
  | .set_partitions_flags, _ => [.blkid_probe_set_partitions_flags]
  | .invert_partitions_filter, _ => [.blkid_probe_invert_partitions_filter]
  | .reset_partitions_filter, _ => [.blkid_probe_reset_partitions_filter]
  | .known_pttype, _ => [.blkid_known_pttype]
  | .part_list, _ => [.blkid_probe_get_partitions]
  | .enable_topology, _ => [.blkid_probe_enable_topology]
  | .topology, _ => [.blkid_probe_get_topology]

/-- Native functions invoked by the Prober constructors (prober.rs
Prober::new and Prober::new_from_filename). -/
def proberCtorCalls : Bool → List NativeFn
  | false => [.blkid_new_probe]
  | true => [.blkid_new_probe_from_filename]

/-- Native functions invoked by the Drop implementation for Prober
(prober.rs lines 44 to 48): exactly one call of blkid_free_probe. -/
def proberDropCalls : List NativeFn := [.blkid_free_probe]

/-- Trace of native calls over the lifetime of one Prober handle: the
constructor runs, then any sequence of public method calls (each paired with
its loop iteration count), and at scope exit the Drop implementation runs.
The method list being arbitrary covers every control path, including bodies
cut short by an early error return: whatever prefix of the planned calls
actually ran, Drop still runs at scope exit. -/
def proberScopeTrace (fromFilename : Bool) (ops : List (ProberOp × Nat)) :
    List NativeFn :=
  proberCtorCalls fromFilename ++
    ops.flatMap (fun p => ProberOp.nativeCalls p.1 p.2) ++ proberDropCalls

/-- The public methods of cache.rs Cache (besides the constructors and the
Drop implementation). -/
inductive CacheOp where
  | probe_all
  | prob_all_new
  | probe_all_removable
  | devs
  | get_dev
  | find_dev_with_tag
  | find_tag_value
  | gc
deriving DecidableEq, Repr

/-- Native functions invoked by each public Cache method (cache.rs). -/
def CacheOp.nativeCalls : CacheOp → List NativeFn
  | .probe_all => [.blkid_probe_all]
  | .prob_all_new => [.blkid_probe_all_new]
  | .probe_all_removable => [.blkid_probe_all_removable]
  | .devs => [.blkid_dev_iterate_begin]
  | .get_dev => [.blkid_get_dev]
  | .find_dev_with_tag => [.blkid_find_dev_with_tag]
  | .find_tag_value => [.blkid_get_tag_value]
  | .gc => [.blkid_gc_cache]

/-- Native functions invoked by the Cache constructors (cache.rs Cache::new
and Cache::new_by_path). -/
def cacheCtorCalls : List NativeFn := [.blkid_get_cache]

/-- Native functions invoked by the Drop implementation for Cache (cache.rs
lines 18 to 22): exactly one call of blkid_put_cache. -/
def cacheDropCalls : List NativeFn := [.blkid_put_cache]

/-- Trace of native calls over the lifetime of one Cache handle: the
constructor runs, then any sequence of public method calls, and at scope
exit the Drop implementation runs. -/
def cacheScopeTrace (ops : List CacheOp) : List NativeFn :=
  cacheCtorCalls ++ ops.flatMap CacheOp.nativeCalls ++ cacheDropCalls

/-- True when the byte is a UTF-8 continuation byte (0x80 to 0xBF). -/
def isCont (b : Nat) : Bool := 0x80 ≤ b && b ≤ 0xBF

/-- Allowed range of the first continuation byte after a three-byte leading
byte, following the UTF-8 table used by Rust str::from_utf8: after 0xE0 it
is 0xA0 to 0xBF, after 0xED it is 0x80 to 0x9F (excluding surrogates), and
otherwise 0x80 to 0xBF. -/
def cont1OkE (b c1 : Nat) : Bool :=
  if b = 0xE0 then 0xA0 ≤ c1 && c1 ≤ 0xBF
  else if b = 0xED then 0x80 ≤ c1 && c1 ≤ 0x9F
  else isCont c1

/-- Allowed range of the first continuation byte after a four-byte leading
byte: after 0xF0 it is 0x90 to 0xBF, after 0xF4 it is 0x80 to 0x8F (keeping
scalars at most 0x10FFFF), and otherwise 0x80 to 0xBF. -/
def cont1OkF (b c1 : Nat) : Bool :=
  if b = 0xF0 then 0x90 ≤ c1 && c1 ≤ 0xBF
  else if b = 0xF4 then 0x80 ≤ c1 && c1 ≤ 0x8F
  else isCont c1

/-- Decode the leading UTF-8 scalar of a byte list: the scalar value and the
remaining bytes, or none when the list does not start with a well-formed
UTF-8 sequence (the validity rules of Rust str::from_utf8). -/
def utf8DecodeOne : List Nat → Option (Nat × List Nat)
  | [] => none
  | b :: rest =>
    if b ≤ 0x7F then some (b, rest)
    else if 0xC2 ≤ b && b ≤ 0xDF then
      match rest with
      | c1 :: r => if isCont c1 then some ((b - 0xC0) * 0x40 + (c1 - 0x80), r) else none
      | [] => none
    else if 0xE0 ≤ b && b ≤ 0xEF then
      match rest with
      | c1 :: c2 :: r =>
        if cont1OkE b c1 && isCont c2 then
          some ((b - 0xE0) * 0x1000 + (c1 - 0x80) * 0x40 + (c2 - 0x80), r)
        else none
      | _ => none
    else if 0xF0 ≤ b && b ≤ 0xF4 then
      match rest with
      | c1 :: c2 :: c3 :: r =>
        if cont1OkF b c1 && isCont c2 && isCont c3 then
          some ((b - 0xF0) * 0x40000 + (c1 - 0x80) * 0x1000 + (c2 - 0x80) * 0x40 + (c3 - 0x80), r)
        else none
      | _ => none
    else none

/-- Strict UTF-8 decoding of a whole byte list into scalar values, with fuel
(one unit per decoded scalar; each scalar consumes at least one byte, so
fuel equal to the list length always suffices): none when any position is
not well formed. -/
def utf8DecodeAll : Nat → List Nat → Option (List Nat)
  | _, [] => some []
  | 0, _ :: _ => none
  | fuel + 1, bs =>
    match utf8DecodeOne bs with
    | none => none
    | some (c, r) => (utf8DecodeAll fuel r).map (fun cs => c :: cs)

/-- CStr::to_str as used by prober.rs and cache.rs: succeeds with the decoded
scalar values exactly when the bytes are valid UTF-8, and fails otherwise. -/
def rustStrToStr (bs : List Nat) : Option (List Nat) :=
  utf8DecodeAll bs.length bs

/-- Length in bytes of the maximal invalid subpart at the start of a byte
list on which utf8DecodeOne fails: the leading byte plus the continuation
bytes that match their expected ranges (the substitution-of-maximal-subparts
rule used by Rust String::from_utf8_lossy); always at least 1. -/
def utf8InvalidLen : List Nat → Nat
  | [] => 1
  | b :: rest =>
    if 0xC2 ≤ b && b ≤ 0xDF then 1
    else if 0xE0 ≤ b && b ≤ 0xEF then
      match rest with
      | [] => 1
      | c1 :: rest2 =>
        if cont1OkE b c1 then
          match rest2 with
          | [] => 2
          | c2 :: _ => if isCont c2 then 3 else 2
        else 1
    else if 0xF0 ≤ b && b ≤ 0xF4 then
      match rest with
      | [] => 1
      | c1 :: rest2 =>
        if cont1OkF b c1 then
          match rest2 with
          | [] => 2
          | c2 :: rest3 =>
            if isCont c2 then
              match rest3 with
              | [] => 3
              | c3 :: _ => if isCont c3 then 4 else 3
            else 2
        else 1
    else 1

/-- Lossy UTF-8 decoding into scalar values, with fuel (each step consumes at
least one byte, so fuel equal to the list length always suffices): a
well-formed sequence decodes to its scalar, and each maximal invalid subpart
becomes the replacement character U+FFFD. -/
def utf8LossyAll : Nat → List Nat → List Nat
  | _, [] => []
  | 0, _ :: _ => []
  | fuel + 1, bs =>
    match utf8DecodeOne bs with
    | some (c, r) => c :: utf8LossyAll fuel r
    | none => 0xFFFD :: utf8LossyAll fuel (bs.drop (utf8InvalidLen bs))

/-- CStr::to_string_lossy as used by tag.rs, partition.rs, part_table.rs and
lib.rs: always produces a string; invalid byte sequences become replacement
characters instead of errors. -/
def rustToStringLossy (bs : List Nat) : List Nat :=
  utf8LossyAll bs.length bs

/-- Scalar values produced by the lossy decoder rendered as a Lean string
(every scalar produced by the decoder is a valid Char). -/
def lossyString (bs : List Nat) : String :=
  String.mk ((rustToStringLossy bs).map Char.ofNat)

/-- prober.rs Prober::get_value, as a function of the raw return code of
blkid_probe_get_value and the name and data bytes the native call wrote:
c_result on the code, then strict to_str conversion of both strings with
the question-mark operator (a Utf8 error on invalid bytes). -/
def Prober.get_value (ret_code : Int) (name data : List Nat) :
    ROutcome BlkIdError (List Nat × List Nat) :=
  (c_result_int ret_code).bind fun _ =>
    match rustStrToStr name with
    | none => .err .Utf8
    | some n =>
      match rustStrToStr data with
      | none => .err .Utf8
      | some d => .ok (n, d)

/-- cache.rs Cache::find_tag_value, as a function of the tag name and device
name bytes and of the pointer returned by blkid_get_tag_value with the bytes
behind it: CString::new conversions, a null pointer becomes Ok(None), and a
non-null pointer is converted with strict to_str (a Utf8 error on invalid
bytes). -/
def Cache.find_tag_value (tagname devname : List Nat)
    (ptrBytes : Option (List Nat)) : ROutcome BlkIdError (Option (List Nat)) :=
  (cstring_new tagname).bind fun _ =>
    (cstring_new devname).bind fun _ =>
      match ptrBytes with
      | none => .ok none
      | some bs =>
        match rustStrToStr bs with
        | none => .err .Utf8
        | some v => .ok (some v)

/-- partition.rs Partition::name, as a function of the pointer returned by
blkid_partition_get_name with the bytes behind it: a null pointer is None,
and a non-null pointer is converted with to_string_lossy, which never
fails. -/
def Partition.name (ptrBytes : Option (List Nat)) : Option (List Nat) :=
  match ptrBytes with
  | none => none
  | some bs => some (rustToStringLossy bs)

/-- tag.rs enum SuperblockTag (variant names as in the source; Type is
escaped because it is a Lean keyword). -/
inductive SuperblockTag where
  | «Type»
  | SecType
  | Label
  | LabelRaw
  | Uuid
  | UuidSub
  | Loguuid
  | UuidRaw
  | ExtJournal
  | Usage
  | Version
  | Mount
  | Sbmagic
  | SbmagicOffset
  | Fssize
  | SystemId
  | PublisherId
  | ApplicationId
  | BootSystemId
  | BlockSize
deriving DecidableEq, Repr

/-- tag.rs enum PartitionTag. -/
inductive PartitionTag where
  | Pttype
  | Ptuuid
  | PartEntrySchema
  | PartEntryName
  | PartEntryUuid
  | PartEntryType
  | PartEntryFlags
  | PartEntryNumber
  | PartEntryOffset
  | PartEntrySize
  | PartEntryDisk
deriving DecidableEq, Repr

/-- tag.rs enum TopologyTag (the OptiomalIoSize spelling is the source's). -/
inductive TopologyTag where
  | LogicalSectorSize
  | PhysicalSectorSize
  | MinimumIoSize
  | OptiomalIoSize
  | AlignmentOffset
deriving DecidableEq, Repr

/-- Display for SuperblockTag: the strum Display derive with serialize_all
SCREAMING_SNAKE_CASE renders each variant as its screaming-snake-case
name. -/
def SuperblockTag.toStr : SuperblockTag → String
  | .«Type» => "TYPE"
  | .SecType => "SEC_TYPE"
  | .Label => "LABEL"
  | .LabelRaw => "LABEL_RAW"
  | .Uuid => "UUID"
  | .UuidSub => "UUID_SUB"
  | .Loguuid => "LOGUUID"
  | .UuidRaw => "UUID_RAW"
  | .ExtJournal => "EXT_JOURNAL"
  | .Usage => "USAGE"
  | .Version => "VERSION"
  | .Mount => "MOUNT"
  | .Sbmagic => "SBMAGIC"
  | .SbmagicOffset => "SBMAGIC_OFFSET"
  | .Fssize => "FSSIZE"
  | .SystemId => "SYSTEM_ID"
  | .PublisherId => "PUBLISHER_ID"
  | .ApplicationId => "APPLICATION_ID"
  | .BootSystemId => "BOOT_SYSTEM_ID"
  | .BlockSize => "BLOCK_SIZE"

/-- The (serialized name, variant) pairs of SuperblockTag in declaration
order, as generated by the strum EnumString derive with serialize_all
SCREAMING_SNAKE_CASE. -/
def SuperblockTag.table : List (String × SuperblockTag) :=
  [("TYPE", .«Type»), ("SEC_TYPE", .SecType), ("LABEL", .Label),
   ("LABEL_RAW", .LabelRaw), ("UUID", .Uuid), ("UUID_SUB", .UuidSub),
   ("LOGUUID", .Loguuid), ("UUID_RAW", .UuidRaw), ("EXT_JOURNAL", .ExtJournal),
   ("USAGE", .Usage), ("VERSION", .Version), ("MOUNT", .Mount),
   ("SBMAGIC", .Sbmagic), ("SBMAGIC_OFFSET", .SbmagicOffset),
   ("FSSIZE", .Fssize), ("SYSTEM_ID", .SystemId), ("PUBLISHER_ID", .PublisherId),
   ("APPLICATION_ID", .ApplicationId), ("BOOT_SYSTEM_ID", .BootSystemId),
   ("BLOCK_SIZE", .BlockSize)]

/-- FromStr for SuperblockTag: the strum EnumString derive matches the input
against the serialized variant names and returns the first (unique) match,
rendered here as a lookup in the table above. -/
def SuperblockTag.from_str (s : String) : Option SuperblockTag :=
  (SuperblockTag.table.find? (fun p => p.1 == s)).map Prod.snd

/-- Display for PartitionTag (strum, SCREAMING_SNAKE_CASE). -/
def PartitionTag.toStr : PartitionTag → String
  | .Pttype => "PTTYPE"
  | .Ptuuid => "PTUUID"
  | .PartEntrySchema => "PART_ENTRY_SCHEMA"
  | .PartEntryName => "PART_ENTRY_NAME"
  | .PartEntryUuid => "PART_ENTRY_UUID"
  | .PartEntryType => "PART_ENTRY_TYPE"
  | .PartEntryFlags => "PART_ENTRY_FLAGS"
  | .PartEntryNumber => "PART_ENTRY_NUMBER"
  | .PartEntryOffset => "PART_ENTRY_OFFSET"
  | .PartEntrySize => "PART_ENTRY_SIZE"
  | .PartEntryDisk => "PART_ENTRY_DISK"

/-- The (serialized name, variant) pairs of PartitionTag in declaration
order (strum, SCREAMING_SNAKE_CASE). -/
def PartitionTag.table : List (String × PartitionTag) :=
  [("PTTYPE", .Pttype), ("PTUUID", .Ptuuid),
   ("PART_ENTRY_SCHEMA", .PartEntrySchema), ("PART_ENTRY_NAME", .PartEntryName),
   ("PART_ENTRY_UUID", .PartEntryUuid), ("PART_ENTRY_TYPE", .PartEntryType),
   ("PART_ENTRY_FLAGS", .PartEntryFlags),
   ("PART_ENTRY_NUMBER", .PartEntryNumber),
   ("PART_ENTRY_OFFSET", .PartEntryOffset),
   ("PART_ENTRY_SIZE", .PartEntrySize), ("PART_ENTRY_DISK", .PartEntryDisk)]

/-- FromStr for PartitionTag: first (unique) match against the serialized
variant names (strum, SCREAMING_SNAKE_CASE). -/
def PartitionTag.from_str (s : String) : Option PartitionTag :=
  (PartitionTag.table.find? (fun p => p.1 == s)).map Prod.snd

/-- Display for TopologyTag (strum, SCREAMING_SNAKE_CASE). -/
def TopologyTag.toStr : TopologyTag → String
  | .LogicalSectorSize => "LOGICAL_SECTOR_SIZE"
  | .PhysicalSectorSize => "PHYSICAL_SECTOR_SIZE"
  | .MinimumIoSize => "MINIMUM_IO_SIZE"
  | .OptiomalIoSize => "OPTIOMAL_IO_SIZE"
  | .AlignmentOffset => "ALIGNMENT_OFFSET"

/-- The (serialized name, variant) pairs of TopologyTag in declaration
order (strum, SCREAMING_SNAKE_CASE). -/
def TopologyTag.table : List (String × TopologyTag) :=
  [("LOGICAL_SECTOR_SIZE", .LogicalSectorSize),
   ("PHYSICAL_SECTOR_SIZE", .PhysicalSectorSize),
   ("MINIMUM_IO_SIZE", .MinimumIoSize), ("OPTIOMAL_IO_SIZE", .OptiomalIoSize),
   ("ALIGNMENT_OFFSET", .AlignmentOffset)]

/-- FromStr for TopologyTag: first (unique) match against the serialized
variant names (strum, SCREAMING_SNAKE_CASE). -/
def TopologyTag.from_str (s : String) : Option TopologyTag :=
  (TopologyTag.table.find? (fun p => p.1 == s)).map Prod.snd

/-- tag.rs enum TagType (the Topoligy spelling is the source's). -/
inductive TagType where
  | Superblock : SuperblockTag → TagType
  | Partition : PartitionTag → TagType
  | Topoligy : TopologyTag → TagType
  | Unknown : String → TagType
deriving DecidableEq, Repr

/-- tag.rs impl From for TagType: try SuperblockTag::from_str, then
PartitionTag::from_str, then TopologyTag::from_str, and otherwise keep the
name as Unknown. -/
def TagType.fromStr (name : String) : TagType :=
  match SuperblockTag.from_str name with
  | some tag => .Superblock tag
  | none =>
    match PartitionTag.from_str name with
    | some tag => .Partition tag
    | none =>
      match TopologyTag.from_str name with
      | some tag => .Topoligy tag
      | none => .Unknown name

/-- tag.rs impl Display for TagType: each sub-kind renders through its own
Display, and Unknown renders the stored name. -/
def TagType.toString : TagType → String
  | .Superblock tag => tag.toStr
  | .Partition tag => tag.toStr
  | .Topoligy tag => tag.toStr
  | .Unknown tag => tag

/-- tag.rs struct Tag: a classified name and a value string. -/
structure Tag where
  name : TagType
  value : String
deriving DecidableEq, Repr

/-- tag.rs impl Iterator for Tags, fn next, as a function of the raw return
code of blkid_tag_next and the name and value bytes it wrote: on return code
0 both byte strings are converted with to_string_lossy (never an error) and
the name is classified with TagType::from; any other return code ends the
iteration. -/
def Tags.next (ret_code : Int) (k v : List Nat) : Option Tag :=
  if ret_code = 0 then
    some { name := TagType.fromStr (lossyString k), value := lossyString v }
  else none

/-- C2: Prober::do_safe_probe translates the native tri-state return code
into an enumerated outcome: Success exactly when the native call returns 0,
NothingDetected exactly when it returns 1, Ambivalent exactly when it
returns -2, and an error for every other return code. -/
theorem c2_do_safe_probe_tristate (errno c : Int) :
    (Prober.do_safe_probe errno c = .ok .Success ↔ c = 0) ∧
    (Prober.do_safe_probe errno c = .ok .NothingDetected ↔ c = 1) ∧
    (Prober.do_safe_probe errno c = .ok .Ambivalent ↔ c = -2) ∧
    (c ≠ 0 → c ≠ 1 → c ≠ -2 → Prober.do_safe_probe errno c = .err (.Io errno)) := by
  unfold Prober.do_safe_probe
  split_ifs with h1 h2 h3 <;> simp_all

/-- Witness for c2_do_safe_probe_tristate at errno 5 and return code 7. -/
theorem c2_do_safe_probe_tristate_witness :
    Prober.do_safe_probe 5 7 = .err (.Io 5) :=
  (c2_do_safe_probe_tristate 5 7).2.2.2 (by decide) (by decide) (by decide)

/-- C9: Prober::do_full_probe invokes the same native entry point
(blkid_do_safeprobe) as Prober::do_safe_probe; the two agree on every return
code other than -2 (in particular on 0 and 1), and at -2 do_full_probe
returns an IO error while do_safe_probe returns Ambivalent. -/
theorem c9_full_vs_safe_probe (errno c : Int) :
    Prober.do_full_probe_entry = Prober.do_safe_probe_entry ∧
    Prober.do_full_probe errno 0 = Prober.do_safe_probe errno 0 ∧
    Prober.do_full_probe errno 1 = Prober.do_safe_probe errno 1 ∧
    (c ≠ -2 → Prober.do_full_probe errno c = Prober.do_safe_probe errno c) ∧
    Prober.do_safe_probe errno (-2) = .ok .Ambivalent ∧
    Prober.do_full_probe errno (-2) = .err (.Io errno) := by
  refine ⟨rfl, rfl, rfl, ?_, ?_, ?_⟩
  · intro h
    unfold Prober.do_full_probe Prober.do_safe_probe
    split_ifs <;> simp_all
  · norm_num [Prober.do_safe_probe]
  · norm_num [Prober.do_full_probe]

/-- Witness for c9_full_vs_safe_probe at errno 3 and return code -7. -/
theorem c9_full_vs_safe_probe_witness :
    Prober.do_full_probe 3 (-7) = Prober.do_safe_probe 3 (-7) :=
  (c9_full_vs_safe_probe 3 (-7)).2.2.2.1 (by decide)

/-- C1 counterexample: the wrapper operation BlkId::do_safe_probe in lib.rs
returns the negative raw native code -2 to the caller as a success value,
so a negative raw result is not translated into an error and the caller
observes a raw native return code. -/
theorem c1_raw_code_escapes :
    BlkId.do_safe_probe "" (-2) = .ok (-2) ∧ ((-2 : Int) < 0) := by
  constructor
  · norm_num [BlkId.do_safe_probe]
  · decide

/-- C1 amended: the error-translation helpers and the current-generation
wrapper operations translate negative and null raw results into errors or
into enumerated/optional values carrying no raw code or pointer, but the
legacy lib.rs BlkId::do_safe_probe returns the raw code (Ok(-2)) to the
caller. -/
theorem c1_error_translation (v errno c : Int) (msg : String) :
    (v < 0 → errorRs_result v = .err (.LibBlkid v)) ∧
    (v < 0 → c_result_int v = .err (.LibBlkid v)) ∧
    c_result_ptr none = .err .LibBlkidNull ∧
    errorRs_result_ptr_mut none = .err .LibBlkidNull ∧
    (c < 0 → c ≠ -2 → Prober.do_safe_probe errno c = .err (.Io errno)) ∧
    (∀ name value : List Nat, 0 ∉ name → 0 ∉ value →
      Cache.find_dev_with_tag name value none = .ok none) ∧
    BlkId.do_safe_probe msg (-2) = .ok (-2) := by
  refine ⟨?_, ?_, rfl, rfl, ?_, ?_, ?_⟩
  · intro hv
    unfold errorRs_result
    split_ifs with h
    · omega
    · rfl
  · intro hv
    simp [c_result_int, hv]
  · intro hc hc2
    unfold Prober.do_safe_probe
    split_ifs <;> simp_all
  · intro name value hn hv
    simp [Cache.find_dev_with_tag, cstring_new, hn, hv, ROutcome.bind]
  · norm_num [BlkId.do_safe_probe]

/-- Witness for c1_error_translation at value -1, errno 7, return code -3,
an empty message and NUL-free tag bytes. -/
theorem c1_error_translation_witness :
    errorRs_result (-1) = .err (.LibBlkid (-1)) ∧
    c_result_int (-1) = .err (.LibBlkid (-1)) ∧
    Prober.do_safe_probe 7 (-3) = .err (.Io 7) ∧
    Cache.find_dev_with_tag [65] [66] none = .ok none := by
  obtain ⟨h1, h2, _, _, h5, h6, _⟩ := c1_error_translation (-1) 7 (-3) ""
  exact ⟨h1 (by decide), h2 (by decide), h5 (by decide) (by decide),
    h6 [65] [66] (by decide) (by decide)⟩

/-- C5 counterexample: with one value reported and get_value failing at
index 0, lib.rs BlkId::get_values_map panics through expect instead of
propagating the get_value error upward. -/
theorem c5_legacy_map_panics :
    BlkId.get_values_map (.ok 1) (fun _ => .err (.Error "fail")) =
      .panicked "i is in range" := rfl

/-- Helper for the get_values_map loop: if every call before index j
succeeds and the call at j fails with e, the loop returns that error. -/
theorem get_values_loop_first_err (f : Int → ROutcome BlkIdError (String × String))
    (e : BlkIdError) :
    ∀ (rem j : Nat) (i : Int) (acc : List (String × String)),
      j < rem → (∀ k : Nat, k < j → (f (i + k)).isOk = true) →
      f (i + j) = .err e →
      Prober.get_values_loop f i rem acc = .err e := by
  intro rem
  induction rem with
  | zero => intro j i acc hj; omega
  | succ n ih =>
    intro j i acc hj hok herr
    match j with
    | 0 =>
      have hfi : f i = .err e := by simpa using herr
      simp [Prober.get_values_loop, hfi]
    | j' + 1 =>
      have h0 : (f i).isOk = true := by simpa using hok 0 (by omega)
      have hfi : ∃ kv, f i = .ok kv := by
        rcases hv : f i with kv | e' | m
        · exact ⟨kv, rfl⟩
        · rw [hv] at h0
          simp [ROutcome.isOk] at h0
        · rw [hv] at h0
          simp [ROutcome.isOk] at h0
      obtain ⟨⟨key, value⟩, hkv⟩ := hfi
      have step : Prober.get_values_loop f i (n + 1) acc =
          Prober.get_values_loop f (i + 1) n (mapInsert acc key value) := by
        simp [Prober.get_values_loop, hkv]
      rw [step]
      apply ih j' (i + 1) (mapInsert acc key value) (by omega)
      · intro k hk
        have := hok (k + 1) (by omega)
        rwa [show i + ((k + 1 : Nat) : Int) = i + 1 + k by push_cast; ring] at this
      · rwa [show i + ((j' + 1 : Nat) : Int) = i + 1 + j' by push_cast; ring] at herr

/-- C5 amended: whenever a native call inside a current-generation wrapper
operation fails the error is returned immediately upward with no retry and
no local recovery; in particular Prober::get_values_map propagates the
first get_value failure.  The legacy lib.rs BlkId::get_values_map instead
panics on a get_value failure (shown by the counterexample). -/
theorem c5_get_values_map_propagates (f : Int → ROutcome BlkIdError (String × String))
    (e : BlkIdError) (n : Int) (j : Nat)
    (hj : (j : Int) < n)
    (hok : ∀ k : Nat, k < j → (f k).isOk = true)
    (herr : f j = .err e) :
    Prober.get_values_map (.ok n) f = .err e := by
  unfold Prober.get_values_map
  show Prober.get_values_loop f 0 n.toNat [] = .err e
  apply get_values_loop_first_err f e n.toNat j 0 [] (by omega)
  · intro k hk
    simpa using hok k hk
  · simpa using herr

/-- Witness for c5_get_values_map_propagates: two values reported, and
get_value fails at index 0 with a Utf8 error. -/
theorem c5_get_values_map_propagates_witness :
    Prober.get_values_map (.ok 2)
      (fun i => if i = 0 then .err .Utf8 else .ok ("A", "B")) = .err .Utf8 := by
  apply c5_get_values_map_propagates _ _ _ 0 (by decide)
  · intro k hk; omega
  · decide

/-- C4: every owning constructor (Cache::new, Cache::new_by_path,
Prober::new, Prober::new_from_filename) returns an error and never panics
when the native allocation or lookup returns null or a negative code
(including a probe on a nonexistent path, where the native call returns
null); on success it returns a wrapper owning the handle. -/
theorem c4_constructors (p : List Nat) (h : Nat) (r : Int) (c : Option Nat) :
    Prober.new none = .err .LibBlkidNull ∧
    Prober.new (some h) = .ok ⟨h⟩ ∧
    (0 ∉ p → Prober.new_from_filename p none = .err .LibBlkidNull) ∧
    (0 ∉ p → Prober.new_from_filename p (some h) = .ok ⟨h⟩) ∧
    (∀ native, (Prober.new_from_filename p native).isPanic = false) ∧
    (r < 0 → Cache.new r c = .err (.LibBlkid r)) ∧
    (0 ≤ r → Cache.new r c = .ok ⟨c⟩) ∧
    (0 ∉ p → r < 0 → Cache.new_by_path p r c = .err (.LibBlkid r)) ∧
    (∀ r' c', (Cache.new_by_path p r' c').isPanic = false) ∧
    (∀ native, (Prober.new native).isPanic = false) ∧
    (∀ r' c', (Cache.new r' c').isPanic = false) := by
  refine ⟨rfl, rfl, ?_, ?_, ?_, ?_, ?_, ?_, ?_, ?_, ?_⟩
  · intro hp
    simp [Prober.new_from_filename, path_to_cstring, hp, c_result_ptr, ROutcome.bind]
  · intro hp
    simp [Prober.new_from_filename, path_to_cstring, hp, c_result_ptr, ROutcome.bind]
  · intro native
    unfold Prober.new_from_filename path_to_cstring c_result_ptr
    split_ifs <;> cases native <;> simp [ROutcome.bind, ROutcome.isPanic]
  · intro hr
    simp [Cache.new, c_result_int, hr, ROutcome.bind]
  · intro hr
    simp [Cache.new, c_result_int, ROutcome.bind, not_lt.mpr hr]
  · intro hp hr
    simp [Cache.new_by_path, path_to_cstring, hp, c_result_int, hr, ROutcome.bind]
  · intro r' c'
    unfold Cache.new_by_path path_to_cstring c_result_int
    split_ifs <;> simp [ROutcome.bind, ROutcome.isPanic]
  · intro native
    unfold Prober.new c_result_ptr
    cases native <;> simp [ROutcome.bind, ROutcome.isPanic]
  · intro r' c'
    unfold Cache.new c_result_int
    split_ifs <;> simp [ROutcome.bind, ROutcome.isPanic]

/-- Witness for c4_constructors: a NUL-free path, handle 3, return code -1
and a null out-pointer. -/
theorem c4_constructors_witness :
    Prober.new_from_filename [65] none = .err .LibBlkidNull ∧
    Prober.new_from_filename [65] (some 3) = .ok ⟨3⟩ ∧
    Cache.new (-1) none = .err (.LibBlkid (-1)) ∧
    Cache.new 0 (some 4) = .ok ⟨some 4⟩ ∧
    Cache.new_by_path [65] (-1) none = .err (.LibBlkid (-1)) := by
  obtain ⟨_, _, h3, h4, _, h6, h7, h8, _, _, _⟩ := c4_constructors [65] 3 (-1) none
  obtain ⟨_, _, _, _, _, _, h7', _, _, _, _⟩ := c4_constructors [65] 4 0 (some 4)
  exact ⟨h3 (by decide), h4 (by decide), h6 (by decide), h7' (by decide),
    h8 (by decide) (by decide)⟩

/-- Helper: no public Prober method invokes blkid_free_probe. -/
theorem free_probe_not_in_ops (op : ProberOp) (n : Nat) :
    NativeFn.blkid_free_probe ∉ ProberOp.nativeCalls op n := by
  cases op <;> simp [ProberOp.nativeCalls, List.mem_replicate]

/-- Helper: no public Cache method invokes blkid_put_cache. -/
theorem put_cache_not_in_ops (op : CacheOp) :
    NativeFn.blkid_put_cache ∉ CacheOp.nativeCalls op := by
  cases op <;> simp [CacheOp.nativeCalls]

/-- C3: over the lifetime of any Prober or Cache handle (any constructor,
any sequence of public method calls, including sequences cut short by an
early error return), the native release function appears exactly once in the
native call trace, contributed by the Drop implementation at scope exit;
no public method invokes the release function, so a second release of the
same handle is impossible. -/
theorem c3_release_exactly_once (b : Bool) (ops : List (ProberOp × Nat))
    (cops : List CacheOp) :
    (proberScopeTrace b ops).count .blkid_free_probe = 1 ∧
    (cacheScopeTrace cops).count .blkid_put_cache = 1 ∧
    (∀ op n, NativeFn.blkid_free_probe ∉ ProberOp.nativeCalls op n) ∧
    (∀ op, NativeFn.blkid_put_cache ∉ CacheOp.nativeCalls op) := by
  have hops : (ops.flatMap (fun p => ProberOp.nativeCalls p.1 p.2)).count
      NativeFn.blkid_free_probe = 0 := by
    rw [List.count_eq_zero]
    intro hmem
    rw [List.mem_flatMap] at hmem
    obtain ⟨p, _, hp⟩ := hmem
    exact free_probe_not_in_ops p.1 p.2 hp
  have hcops : (cops.flatMap CacheOp.nativeCalls).count
      NativeFn.blkid_put_cache = 0 := by
    rw [List.count_eq_zero]
    intro hmem
    rw [List.mem_flatMap] at hmem
    obtain ⟨p, _, hp⟩ := hmem
    exact put_cache_not_in_ops p hp
  refine ⟨?_, ?_, free_probe_not_in_ops, put_cache_not_in_ops⟩
  · unfold proberScopeTrace
    rw [List.count_append, List.count_append, hops]
    cases b <;> simp [proberCtorCalls, proberDropCalls]
  · unfold cacheScopeTrace
    rw [List.count_append, List.count_append, hcops]
    simp [cacheCtorCalls, cacheDropCalls]

/-- C6 counterexample: the byte sequence [0xFF] is rejected by the strict
conversion helper, yet Partition::name silently produces the
replacement-character string for it instead of an encoding error, and
Tags::next likewise yields a tag for it; so not every foreign-buffer string
conversion fails explicitly on invalid encoding. -/
theorem c6_lossy_not_error :
    rustStrToStr [0xFF] = none ∧
    Partition.name (some [0xFF]) = some [0xFFFD] ∧
    (Tags.next 0 [65] [0xFF]).isSome = true := by
  refine ⟨by decide, by decide, by decide⟩

/-- C6 amended: string conversion is per call site, not centralized, and the
sites disagree: prober.rs Prober::get_value and cache.rs
Cache::find_tag_value convert strictly and return an explicit encoding
error on invalid bytes, while partition.rs Partition::name and tag.rs
Tags::next lossy-convert the same bytes, producing replacement characters
and never an encoding error. -/
theorem c6_strict_vs_lossy (bs nb : List Nat) (r : Int) :
    (rustStrToStr bs = none → 0 ≤ r → (rustStrToStr nb).isSome = true →
      Prober.get_value r nb bs = .err .Utf8) ∧
    (rustStrToStr bs = none → 0 ∉ nb →
      Cache.find_tag_value nb nb (some bs) = .err .Utf8) ∧
    Partition.name (some bs) = some (rustToStringLossy bs) ∧
    (Tags.next 0 nb bs).isSome = true := by
  refine ⟨?_, ?_, rfl, by simp [Tags.next]⟩
  · intro hbs hr hnb
    obtain ⟨n', hn'⟩ := Option.isSome_iff_exists.mp hnb
    simp [Prober.get_value, c_result_int, not_lt.mpr hr, ROutcome.bind, hn', hbs]
  · intro hbs hnb
    simp [Cache.find_tag_value, cstring_new, hnb, ROutcome.bind, hbs]

/-- Witness for c6_strict_vs_lossy at the invalid byte 0xFF with valid name
bytes [65] and return code 0. -/
theorem c6_strict_vs_lossy_witness :
    Prober.get_value 0 [65] [0xFF] = .err .Utf8 ∧
    Cache.find_tag_value [65] [65] (some [0xFF]) = .err .Utf8 := by
  obtain ⟨h1, h2, _, _⟩ := c6_strict_vs_lossy [0xFF] [65] 0
  exact ⟨h1 (by decide) (by decide) (by decide), h2 (by decide) (by decide)⟩

/-- Helper for the get_partitions loop: if get_partition succeeds on every
one of the rem indices starting at i, the loop appends exactly those
partitions in index order. -/
theorem get_partitions_loop_ok (f : Int → ROutcome BlkIdError Partition)
    (p : Int → Partition) :
    ∀ (rem : Nat) (i : Int) (acc : List Partition),
      (∀ k : Nat, k < rem → f (i + k) = .ok (p (i + k))) →
      PartList.get_partitions_loop f i rem acc =
        .ok (acc ++ (List.range rem).map (fun k : Nat => p (i + (k : Int)))) := by
  intro rem
  induction rem with
  | zero => intro i acc _; simp [PartList.get_partitions_loop]
  | succ n ih =>
    intro i acc hok
    have hfi : f i = .ok (p i) := by simpa using hok 0 (by omega)
    have step : PartList.get_partitions_loop f i (n + 1) acc =
        PartList.get_partitions_loop f (i + 1) n (acc ++ [p i]) := by
      simp [PartList.get_partitions_loop, hfi]
    rw [step, ih (i + 1) (acc ++ [p i]) ?_]
    · have hmap : (List.range n).map ((fun k : Nat => p (i + (k : Int))) ∘ Nat.succ) =
          (List.range n).map (fun k : Nat => p (i + 1 + (k : Int))) := by
        apply List.map_congr_left
        intro k _
        simp only [Function.comp_apply]
        congr 1
        push_cast
        ring
      rw [List.range_succ_eq_map, List.map_cons, List.map_map, hmap, List.append_assoc,
        List.singleton_append]
      simp
    · intro k hk
      have := hok (k + 1) (by omega)
      rwa [show i + ((k + 1 : Nat) : Int) = i + 1 + k by push_cast; ring] at this

/-- C7: when numof_partitions reports n (n at least 0) and get_partition
succeeds on every index below n, PartList::get_partitions returns Ok with a
vector of exactly n partitions whose i-th entry is the result of
get_partition(i), in index order. -/
theorem c7_get_partitions (f : Int → ROutcome BlkIdError Partition)
    (p : Int → Partition) (n : Int) (h0 : 0 ≤ n)
    (h : ∀ i : Int, 0 ≤ i → i < n → f i = .ok (p i)) :
    PartList.get_partitions (.ok n) f =
      .ok ((List.range n.toNat).map (fun k : Nat => p (k : Int))) ∧
    ((List.range n.toNat).map (fun k : Nat => p (k : Int))).length = n.toNat := by
  constructor
  · unfold PartList.get_partitions
    show PartList.get_partitions_loop f 0 n.toNat [] = _
    rw [get_partitions_loop_ok f p n.toNat 0 [] ?_]
    · simp
    · intro k hk
      have := h k (by omega) (by omega)
      simpa using this
  · simp

/-- Witness for c7_get_partitions: two partitions, get_partition returning
the partition whose handle is its index. -/
theorem c7_get_partitions_witness :
    PartList.get_partitions (.ok 2) (fun i => .ok ⟨i.toNat⟩) =
      .ok [⟨0⟩, ⟨1⟩] := by
  have := (c7_get_partitions (fun i => .ok ⟨i.toNat⟩) (fun i => ⟨i.toNat⟩) 2
    (by decide) (fun i _ _ => rfl)).1
  rw [this]
  decide

/-- C8: TagType::from classifies a name as a Superblock tag when
SuperblockTag::from_str parses it; otherwise as a Partition tag when
PartitionTag::from_str parses it; otherwise as a Topology tag when
TopologyTag::from_str parses it; otherwise as Unknown carrying the original
name string unchanged. -/
theorem c8_tagtype_classification (s : String) :
    (∀ t, SuperblockTag.from_str s = some t → TagType.fromStr s = .Superblock t) ∧
    (SuperblockTag.from_str s = none →
      ∀ t, PartitionTag.from_str s = some t → TagType.fromStr s = .Partition t) ∧
    (SuperblockTag.from_str s = none → PartitionTag.from_str s = none →
      ∀ t, TopologyTag.from_str s = some t → TagType.fromStr s = .Topoligy t) ∧
    (SuperblockTag.from_str s = none → PartitionTag.from_str s = none →
      TopologyTag.from_str s = none → TagType.fromStr s = .Unknown s) := by
  refine ⟨?_, ?_, ?_, ?_⟩
  · intro t h
    unfold TagType.fromStr
    rw [h]
  · intro hs t h
    unfold TagType.fromStr
    rw [hs, h]
  · intro hs hp t h
    unfold TagType.fromStr
    rw [hs, hp, h]
  · intro hs hp ht
    unfold TagType.fromStr
    rw [hs, hp, ht]

/-- Witness for c8_tagtype_classification: PTTYPE is not a superblock tag
name and parses as the partition tag Pttype, and FOO parses as no tag at
all. -/
theorem c8_tagtype_classification_witness :
    TagType.fromStr "PTTYPE" = .Partition .Pttype ∧
    TagType.fromStr "FOO" = .Unknown "FOO" := by
  constructor
  · exact (c8_tagtype_classification "PTTYPE").2.1 (by decide) .Pttype (by decide)
  · exact (c8_tagtype_classification "FOO").2.2.2 (by decide) (by decide) (by decide)

/-- Helper: the Display rendering of each SuperblockTag table entry is its
table name. -/
theorem superblock_table_display :
    ∀ p ∈ SuperblockTag.table, SuperblockTag.toStr p.2 = p.1 := by decide

/-- Helper: the Display rendering of each PartitionTag table entry is its
table name. -/
theorem partition_table_display :
    ∀ p ∈ PartitionTag.table, PartitionTag.toStr p.2 = p.1 := by decide

/-- Helper: the Display rendering of each TopologyTag table entry is its
table name. -/
theorem topology_table_display :
    ∀ p ∈ TopologyTag.table, TopologyTag.toStr p.2 = p.1 := by decide

/-- Helper: SuperblockTag::from_str only accepts the exact rendering of a
variant, so Display inverts it. -/
theorem superblock_from_str_toStr (s : String) (t : SuperblockTag)
    (h : SuperblockTag.from_str s = some t) : SuperblockTag.toStr t = s := by
  unfold SuperblockTag.from_str at h
  rcases hf : SuperblockTag.table.find? (fun p => p.1 == s) with _ | pr
  · rw [hf] at h
    cases h
  · rw [hf] at h
    simp only [Option.map_some'] at h
    injection h with h
    subst h
    have hmem : pr ∈ SuperblockTag.table := List.mem_of_find?_eq_some hf
    have hpred : pr.1 = s := by
      have h2 := List.find?_some hf
      simpa using h2
    rw [superblock_table_display pr hmem, hpred]

/-- Helper: PartitionTag::from_str only accepts the exact rendering of a
variant, so Display inverts it. -/
theorem partition_from_str_toStr (s : String) (t : PartitionTag)
    (h : PartitionTag.from_str s = some t) : PartitionTag.toStr t = s := by
  unfold PartitionTag.from_str at h
  rcases hf : PartitionTag.table.find? (fun p => p.1 == s) with _ | pr
  · rw [hf] at h
    cases h
  · rw [hf] at h
    simp only [Option.map_some'] at h
    injection h with h
    subst h
    have hmem : pr ∈ PartitionTag.table := List.mem_of_find?_eq_some hf
    have hpred : pr.1 = s := by
      have h2 := List.find?_some hf
      simpa using h2
    rw [partition_table_display pr hmem, hpred]

/-- Helper: TopologyTag::from_str only accepts the exact rendering of a
variant, so Display inverts it. -/
theorem topology_from_str_toStr (s : String) (t : TopologyTag)
    (h : TopologyTag.from_str s = some t) : TopologyTag.toStr t = s := by
  unfold TopologyTag.from_str at h
  rcases hf : TopologyTag.table.find? (fun p => p.1 == s) with _ | pr
  · rw [hf] at h
    cases h
  · rw [hf] at h
    simp only [Option.map_some'] at h
    injection h with h
    subst h
    have hmem : pr ∈ TopologyTag.table := List.mem_of_find?_eq_some hf
    have hpred : pr.1 = s := by
      have h2 := List.find?_some hf
      simpa using h2
    rw [topology_table_display pr hmem, hpred]

/-- C10: for every string s, converting s into a TagType and formatting the
result back yields exactly s, both for recognized superblock, partition and
topology tag names and for Unknown names. -/
theorem c10_tagtype_roundtrip (s : String) :
    (TagType.fromStr s).toString = s := by
  unfold TagType.fromStr
  cases hsb : SuperblockTag.from_str s with
  | some t =>
    simpa [TagType.toString] using superblock_from_str_toStr s t hsb
  | none =>
    cases hp : PartitionTag.from_str s with
    | some t =>
      simpa [TagType.toString] using partition_from_str_toStr s t hp
    | none =>
      cases ht : TopologyTag.from_str s with
      | some t =>
        simpa [TagType.toString] using topology_from_str_toStr s t ht
      | none => simp [TagType.toString]
